import Mathlib

/-!
# linkdump: queue-and-flush state machine

A shallow embedding of `src/linkdump.go`.  The server keeps an in-memory queue of
links (`LinkDump.LinkQueue`); `submit` validates and appends, `dump` formats the
queue as one mail message, hands it to the mailer and clears the queue when the
mailer succeeds, and `router` dispatches HTTP requests to them.

Go strings are embedded as lists of runes (`Str`).  Everything the environment
decides (the clock, whether the request form parses, what the mailer does) is an
explicit input; everything the handler does to the outside (log lines, the mailer
command, the HTTP response) is an explicit output.
-/

namespace Linkdump

/-! ## Strings -/

/-- A Go string, as the sequence of runes that `strings.TrimSpace` decodes from it (a byte
that is not valid UTF-8 decodes to U+FFFD, which is not white space). -/
abbrev Str := List Char

/-- The rune predicate `unicode.IsSpace` of the Go standard library: the Latin-1 spaces
`\t \n \v \f \r`, space, U+0085, U+00A0, and the other runes of the Unicode
White_Space property. -/
def isSpace (c : Char) : Bool :=
  let n := c.toNat
  (9 ≤ n && n ≤ 13) || n == 32 || n == 133 || n == 160 || n == 5760 ||
  (8192 ≤ n && n ≤ 8202) || n == 8232 || n == 8233 || n == 8239 || n == 8287 || n == 12288

/-- Go `strings.TrimLeftFunc(s, unicode.IsSpace)`: drop the leading white space. -/
def TrimLeft (s : Str) : Str := s.dropWhile isSpace

/-- Go `strings.TrimRightFunc(s, unicode.IsSpace)`: drop the trailing white space. -/
def TrimRight (s : Str) : Str := (s.reverse.dropWhile isSpace).reverse

/-- Go `strings.TrimSpace`: the leading white space is cut first, then the trailing
white space of what is left. -/
def TrimSpace (s : Str) : Str := TrimRight (TrimLeft s)

/-- The verb `%d` of `fmt` on a non-negative integer: its decimal digits. -/
def decimal (n : Nat) : Str := Nat.toDigits 10 n

/-- The literal `"about:blank"` that `submit` refuses. -/
def aboutBlank : Str := "about:blank".toList


/-- The name of the mailer program that `dump` runs. -/
def msmtp : Str := "msmtp".toList

/-! ## State and environment -/

/-- The server state, `type LinkDump struct`. -/
structure LinkDump where
  Host : Str
  Port : Int
  EmailAddr : Str
  LinkMin : Int
  LinkQueue : List Str
  deriving DecidableEq, Repr

/-- The lines written with `log.Printf`, one constructor per call site (lines 73, 82,
85, 88, 98, 109, 110, 114, 119), carrying the values of the program that the format
string prints; the error values and the mailer output printed at lines 98, 109 and 110
come from the environment and are not carried. -/
inductive LogLine where
  | queueing (pos : Nat) (link : Str)
  | nothingToDump
  | tooFew (size : Nat) (min : Int)
  | dumping (size : Nat)
  | pipeFailed
  | mailerFailed
  | mailerOutput
  | success (size : Nat)
  | failedUnchanged
  deriving DecidableEq, Repr

/-- What a handler does to the outside world, in program order. -/
inductive Effect where
  /-- A `log.Printf` call. -/
  | log (line : LogLine)
  /-- The call `exec.Command(name, arg)` followed by `cmd.StdinPipe()`. -/
  | command (name arg : Str)
  /-- The text is written to the command's stdin and `cmd.CombinedOutput()` runs it. -/
  | run (stdin : Str)
  deriving DecidableEq, Repr

/-- What the mailer does when `dump` reaches it: the stdin pipe cannot be created,
the command returns an error, or the command exits cleanly. -/
inductive Transport where
  | pipeError
  | runError
  | ok
  deriving DecidableEq, Repr

/-- The part of `*http.Request` the handlers read.  `Query` is `r.URL.Query()` as
key/value pairs; `Form` is the form after `r.ParseForm()`, `none` when parsing fails. -/
structure Request where
  Method : Str
  Path : Str
  Query : List (Str × Str)
  Form : Option (List (Str × Str))
  deriving DecidableEq, Repr

/-- What is written to the `http.ResponseWriter`. -/
structure Response where
  Status : Nat
  Body : Str
  deriving DecidableEq, Repr

/-- What the environment supplies to one handler call: the formatted
`time.Now().Format(time.UnixDate)` and the behaviour of the mailer. -/
structure Env where
  now : Str
  mailer : Transport
  deriving DecidableEq, Repr

/-- The outcome of an HTTP handler: response, state afterwards, effects. -/
structure Handled where
  resp : Response
  ld : LinkDump
  trace : List Effect
  deriving DecidableEq, Repr

/-- The outcome of `dump`: returned boolean, state afterwards, effects. -/
structure Dumped where
  ok : Bool
  ld : LinkDump
  trace : List Effect
  deriving DecidableEq, Repr

/-! ## HTTP helpers -/

/-- The call `http.Error(w, msg, code)`: status `code`, body `msg` and a newline. -/
def httpError (msg : Str) (code : Nat) : Response :=
  { Status := code, Body := msg ++ "\n".toList }

/-- A body written with `fmt.Fprintf` and no explicit status: status 200. -/
def httpOK (body : Str) : Response :=
  { Status := 200, Body := body }

/-- The answer of `submit` when `r.ParseForm()` fails (line 59). -/
def badRequest : Response := httpError "400 Bad Request".toList 400

/-- The answer of `submit` to an empty link (line 65). -/
def emptyLinkRejected : Response :=
  httpError "400 Bad Request (empty link is invalid)".toList 400

/-- The answer of `submit` to the link `about:blank` (line 69). -/
def aboutBlankRejected : Response :=
  httpError "400 Bad Request (about:blank is invalid)".toList 400

/-- The answer of `router` on its two `default` branches (lines 42 and 52). -/
def forbidden : Response := httpError "403 Method Not Allowed".toList 403

/-- The call `r.FormValue(key)`: the first value stored under `key`, or the empty string. -/
def FormValue (form : List (Str × Str)) (key : Str) : Str :=
  match form.find? (fun kv => kv.1 == key) with
  | some kv => kv.2
  | none => []

/-- The format `"%d. %s\n"` applied to `i+1` and `link`, as in both `range` loops. -/
def numbered (i : Nat) (link : Str) : Str :=
  decimal (i + 1) ++ ". ".toList ++ link ++ "\n".toList

/-! ## submit -/

/-- The method `submit` (lines 56-77). -/
def LinkDump.submit (ld : LinkDump) (r : Request) : Handled :=
  match r.Form with
  | none => ⟨badRequest, ld, []⟩
  | some form =>
    let link := TrimSpace (FormValue form "link".toList)
    if link = [] then
      ⟨emptyLinkRejected, ld, []⟩
    else if link = aboutBlank then
      ⟨aboutBlankRejected, ld, []⟩
    else
      let ld1 : LinkDump := { ld with LinkQueue := ld.LinkQueue ++ [link] }
      ⟨httpOK ("Link #".toList ++ decimal ld1.LinkQueue.length ++ " pushed to queue!\n".toList),
        ld1, [.log (.queueing (ld.LinkQueue.length + 1) link)]⟩

/-! ## dump -/

/-- The message built at lines 89-93: the header from `fmt.Sprintf`, then one
`msg += ...` per queue element in `range` order. -/
def LinkDump.dumpMessage (ld : LinkDump) (t : Str) : Str :=
  ld.LinkQueue.enum.foldl (fun msg il => msg ++ numbered il.1 il.2)
    ("Subject: linkdump - ".toList ++ t ++ "\nTo: ".toList ++ ld.EmailAddr ++ "\n\n".toList)

/-- Where `dump` stands after the `switch` header and the message loop (lines 80-93):
it has returned false, or it holds the message and goes on to the mailer. -/
inductive Gate where
  | refused (trace : List Effect)
  | deliver (msg : Str) (trace : List Effect)
  deriving DecidableEq, Repr

/-- Lines 80-93 of `dump`: the size gate, and the message when the gate lets the dump through. -/
def LinkDump.dumpGate (ld : LinkDump) (force : Bool) (now : Str) : Gate :=
  let l := ld.LinkQueue.length
  if l = 0 then .refused [.log .nothingToDump]
  else if (l : Int) < ld.LinkMin && !force then .refused [.log (.tooFew l ld.LinkMin)]
  else .deliver (ld.dumpMessage now) [.log (.dumping l)]

/-- Lines 95-120 of `dump`: run the mailer on `msg`; reset the queue when it succeeds,
fall through to `failure` otherwise. -/
def LinkDump.dumpDeliver (ld : LinkDump) (msg : Str) (m : Transport) : Dumped :=
  match m with
  | .pipeError =>
    ⟨false, ld, [.command msmtp ld.EmailAddr, .log .pipeFailed, .log .failedUnchanged]⟩
  | .runError =>
    ⟨false, ld, [.command msmtp ld.EmailAddr, .run msg, .log .mailerFailed, .log .mailerOutput,
      .log .failedUnchanged]⟩
  | .ok =>
    let ld1 : LinkDump := { ld with LinkQueue := [] }
    ⟨true, ld1, [.command msmtp ld.EmailAddr, .run msg, .log (.success ld1.LinkQueue.length)]⟩

/-- The method `dump` (lines 79-121), run without interruption. -/
def LinkDump.dump (ld : LinkDump) (force : Bool) (now : Str) (m : Transport) : Dumped :=
  match ld.dumpGate force now with
  | .refused tr => ⟨false, ld, tr⟩
  | .deliver msg tr =>
    let d := ld.dumpDeliver msg m
    ⟨d.ok, d.ld, tr ++ d.trace⟩

/-- The state after the requests `rs` have been handled by `submit`, one after the other. -/
def LinkDump.submitAll (ld : LinkDump) (rs : List Request) : LinkDump :=
  rs.foldl (fun s r => (s.submit r).ld) ld

/-- A `dump` during which other goroutines handle the requests `during` with `submit`
while the mailer runs: `dump` evaluates the gate and builds its message on `ld`
(lines 80-93), the submits then act on the shared state, and `dump` resumes at the
mailer outcome (lines 108-120) on the state they left.  When the gate refuses, `dump`
has returned before the submits.  The trace is that of `dump` alone. -/
def LinkDump.dumpInFlight (ld : LinkDump) (force : Bool) (now : Str) (during : List Request)
    (m : Transport) : Dumped :=
  match ld.dumpGate force now with
  | .refused tr => ⟨false, ld.submitAll during, tr⟩
  | .deliver msg tr =>
    let d := (ld.submitAll during).dumpDeliver msg m
    ⟨d.ok, d.ld, tr ++ d.trace⟩

/-! ## router -/

/-- The body written for `GET /` (lines 31-38). -/
def LinkDump.listing (ld : LinkDump) : Str :=
  if ld.LinkQueue.length = 0 then "linkdump queue is empty!\n".toList
  else ld.LinkQueue.enum.foldl (fun out il => out ++ numbered il.1 il.2) "linkdump queue:\n\n".toList

/-- The method `router` (lines 26-54). -/
def LinkDump.router (ld : LinkDump) (r : Request) (env : Env) : Handled :=
  if r.Path = "/".toList then
    if r.Method = "GET".toList then ⟨httpOK ld.listing, ld, []⟩
    else if r.Method = "POST".toList then ld.submit r
    else ⟨forbidden, ld, []⟩
  else if r.Path = "/dump".toList then
    let force := r.Query.any (fun kv => kv.1 == "force".toList)
    let d := ld.dump force env.now env.mailer
    if d.ok then ⟨httpOK "Dump successful, email incoming!\n".toList, d.ld, d.trace⟩
    else ⟨httpOK "Dump failed, see log for details\n".toList, d.ld, d.trace⟩
  else ⟨forbidden, ld, []⟩

/-! ## main -/

/-- The signals `main` subscribes to. -/
inductive Signal where
  | SIGUSR1
  | SIGUSR2
  | SIGTERM
  | SIGINT
  deriving DecidableEq, Repr

/-- The state `main` serves from: the flag values, and the zero-value (empty) queue. -/
def mainInit (host : Str) (port : Int) (email : Str) (linkMin : Int) : LinkDump :=
  { Host := host, Port := port, EmailAddr := email, LinkMin := linkMin, LinkQueue := [] }

/-- One thing that happens to the running server: an HTTP request through `router`,
or a signal, on which the listener goroutine calls `dump(sig != SIGUSR1)`.  The exit
after SIGTERM and SIGINT is left out: a run may go on after them, which only adds
reachable states. -/
inductive Input where
  | http (r : Request) (env : Env)
  | signal (sig : Signal) (env : Env)
  deriving DecidableEq, Repr

/-- The state after one input. -/
def LinkDump.step (ld : LinkDump) : Input → LinkDump
  | .http r env => (ld.router r env).ld
  | .signal sig env => (ld.dump (sig != Signal.SIGUSR1) env.now env.mailer).ld

/-- The state after a finite sequence of inputs, handled one after the other. -/
def LinkDump.run (ld : LinkDump) (inputs : List Input) : LinkDump :=
  inputs.foldl LinkDump.step ld

/-! ## The message as the specification words it -/

/-- The dump message in the words of the specification: the two header lines and an
empty line, then for `i = 1..N` in queue order the line `decimal(i) ". " l_i "\n"`. -/
def specMessage (t a : Str) (links : List Str) : Str :=
  "Subject: linkdump - ".toList ++ t ++ "\nTo: ".toList ++ a ++ "\n\n".toList ++
    (List.finRange links.length).flatMap
      (fun i => decimal (i.val + 1) ++ ". ".toList ++ links.get i ++ "\n".toList)

/-- A link as the data model wants it: not empty, already trimmed, not `about:blank`. -/
def ValidLink (x : Str) : Prop :=
  x ≠ [] ∧ TrimSpace x = x ∧ x ≠ aboutBlank

/-- Every link in the queue of `ld` is valid. -/
def LinkDump.QueueValid (ld : LinkDump) : Prop :=
  ∀ x ∈ ld.LinkQueue, ValidLink x

/-- The link that `submit` appends for the request `r`, when it appends one: the three
refusals of `submit` in order, then the trimmed form value (see `submit_ld_eq`). -/
def Request.accepted (r : Request) : Option Str :=
  match r.Form with
  | none => none
  | some form =>
    if TrimSpace (FormValue form "link".toList) = [] then none
    else if TrimSpace (FormValue form "link".toList) = aboutBlank then none
    else some (TrimSpace (FormValue form "link".toList))

/-! ## Sample states and requests -/

/-- A server state with the default host and port, the given minimum and queue. -/
def sampleServer (linkMin : Int) (queue : List Str) : LinkDump :=
  { mainInit "localhost".toList 1234 "me@localhost".toList linkMin with LinkQueue := queue }

/-- The request that posts the form field `link=s` to the path `path`. -/
def postLink (path : String) (s : String) : Request :=
  { Method := "POST".toList, Path := path.toList, Query := [],
    Form := some [("link".toList, s.toList)] }

/-- The request `POST /dump`, with no query and an empty form. -/
def postDump : Request :=
  { Method := "POST".toList, Path := "/dump".toList, Query := [], Form := some [] }

/-- A queue of three links. -/
def threeLinks : List Str :=
  ["https://a.example".toList, "https://b.example".toList, "https://c.example".toList]

/-- A timestamp in the layout `time.UnixDate`. -/
def sampleTime : Str := "Mon Jan  2 15:04:05 MST 2006".toList

/-! ## Lemmas on strings -/

theorem TrimRight_eq_rdropWhile (s : Str) : TrimRight s = s.rdropWhile isSpace := rfl

/-- Cutting trailing white space keeps a string that starts with a non-space rune
starting with that rune, or empties it. -/
theorem TrimLeft_TrimRight_TrimLeft (s : Str) :
    TrimLeft (TrimRight (TrimLeft s)) = TrimRight (TrimLeft s) := by
  unfold TrimLeft
  rw [TrimRight_eq_rdropWhile]
  have hpre : (List.dropWhile isSpace s).rdropWhile isSpace <+: List.dropWhile isSpace s :=
    List.rdropWhile_prefix isSpace (List.dropWhile isSpace s)
  have hhead := List.head?_dropWhile_not isSpace s
  cases hu : List.dropWhile isSpace s with
  | nil => simp [List.rdropWhile]
  | cons a u =>
    rw [hu] at hpre hhead
    simp only [List.head?_cons] at hhead
    cases hv : List.rdropWhile isSpace (a :: u) with
    | nil => rfl
    | cons b v =>
      rw [hv] at hpre
      obtain ⟨w, hw⟩ := hpre
      have hab : b = a := by
        have := congrArg List.head? hw
        simpa using this
      subst hab
      simp [List.dropWhile_cons, hhead]

/-- The function `TrimSpace` is idempotent. -/
theorem TrimSpace_idem (s : Str) : TrimSpace (TrimSpace s) = TrimSpace s := by
  unfold TrimSpace
  rw [TrimLeft_TrimRight_TrimLeft, TrimRight_eq_rdropWhile, TrimRight_eq_rdropWhile,
    List.rdropWhile_idempotent]

/-! ## Lemmas on the message loop -/

theorem foldl_append_bind {α : Type} (f : α → Str) (xs : List α) (init : Str) :
    xs.foldl (fun acc x => acc ++ f x) init = init ++ xs.flatMap f := by
  induction xs generalizing init with
  | nil => simp
  | cons x xs ih => simp [ih, List.append_assoc]

theorem enum_eq_map_finRange (l : List Str) :
    l.enum = (List.finRange l.length).map (fun i => (i.val, l.get i)) := by
  apply List.ext_getElem
  · simp
  · intro n h1 h2
    simp [List.enum]

/-- The loop of `dump` builds the message of the specification. -/
theorem dumpMessage_eq_specMessage (ld : LinkDump) (t : Str) :
    ld.dumpMessage t = specMessage t ld.EmailAddr ld.LinkQueue := by
  unfold LinkDump.dumpMessage specMessage
  rw [foldl_append_bind (fun il : Nat × Str => numbered il.1 il.2), enum_eq_map_finRange,
    List.flatMap_map]
  rfl

/-! ## Lemmas on dump -/

theorem dumpGate_empty (ld : LinkDump) (force : Bool) (now : Str) (h : ld.LinkQueue = []) :
    ld.dumpGate force now = .refused [.log .nothingToDump] := by
  simp [LinkDump.dumpGate, h]

theorem dumpGate_tooFew (ld : LinkDump) (now : Str) (h0 : 0 < ld.LinkQueue.length)
    (h1 : (ld.LinkQueue.length : Int) < ld.LinkMin) :
    ld.dumpGate false now = .refused [.log (.tooFew ld.LinkQueue.length ld.LinkMin)] := by
  have : ld.LinkQueue.length ≠ 0 := by omega
  simp [LinkDump.dumpGate, this, h1]

theorem dumpGate_deliver (ld : LinkDump) (force : Bool) (now : Str) (hne : ld.LinkQueue ≠ [])
    (hgate : force = true ∨ ld.LinkMin ≤ (ld.LinkQueue.length : Int)) :
    ld.dumpGate force now = .deliver (ld.dumpMessage now) [.log (.dumping ld.LinkQueue.length)] := by
  have h0 : ld.LinkQueue.length ≠ 0 := by
    simpa [List.length_eq_zero] using hne
  unfold LinkDump.dumpGate
  simp only [h0, if_false]
  rcases hgate with hf | hm
  · simp [hf]
  · have : ¬ ((ld.LinkQueue.length : Int) < ld.LinkMin) := by omega
    simp [this]

theorem dump_of_gate_open (ld : LinkDump) (force : Bool) (now : Str) (m : Transport)
    (hne : ld.LinkQueue ≠ [])
    (hgate : force = true ∨ ld.LinkMin ≤ (ld.LinkQueue.length : Int)) :
    ld.dump force now m =
      ⟨(ld.dumpDeliver (ld.dumpMessage now) m).ok, (ld.dumpDeliver (ld.dumpMessage now) m).ld,
        [.log (.dumping ld.LinkQueue.length)] ++ (ld.dumpDeliver (ld.dumpMessage now) m).trace⟩ := by
  unfold LinkDump.dump
  rw [dumpGate_deliver ld force now hne hgate]

theorem run_mem_dumpDeliver (ld : LinkDump) (msg : Str) (m : Transport)
    (hm : m ≠ .pipeError) : Effect.run msg ∈ (ld.dumpDeliver msg m).trace := by
  cases m <;> simp [LinkDump.dumpDeliver] at hm ⊢

theorem dumpDeliver_failure (ld : LinkDump) (msg : Str) (m : Transport) (hm : m ≠ .ok) :
    (ld.dumpDeliver msg m).ok = false ∧ (ld.dumpDeliver msg m).ld = ld := by
  cases m <;> simp [LinkDump.dumpDeliver] at hm ⊢
/-! ## Claims on dump -/

/-- C1: for every state, force value and timestamp, if `dump` reaches the mailer (the
command for `EmailAddr` is created) and the mailer fails, at the stdin pipe or as the
command's error, then `dump` returns false and `LinkQueue` is what it was before the call. -/
theorem dump_transport_failure_keeps_queue (ld : LinkDump) (force : Bool) (now : Str)
    (m : Transport) (_hreach : Effect.command msmtp ld.EmailAddr ∈ (ld.dump force now m).trace)
    (hfail : m = .pipeError ∨ m = .runError) :
    (ld.dump force now m).ok = false ∧ (ld.dump force now m).ld.LinkQueue = ld.LinkQueue := by
  have hm : m ≠ .ok := by rcases hfail with h | h <;> simp [h]
  unfold LinkDump.dump
  cases hg : ld.dumpGate force now with
  | refused tr => simp
  | deliver msg tr =>
    have := dumpDeliver_failure ld msg m hm
    simp [this.1, this.2]

theorem dump_transport_failure_keeps_queue_witness :
    Effect.command msmtp (sampleServer 10 threeLinks).EmailAddr ∈
        ((sampleServer 10 threeLinks).dump true sampleTime .runError).trace ∧
      (Transport.runError = .pipeError ∨ Transport.runError = .runError) ∧
      ((sampleServer 10 threeLinks).dump true sampleTime .runError).ok = false ∧
      ((sampleServer 10 threeLinks).dump true sampleTime .runError).ld.LinkQueue =
        (sampleServer 10 threeLinks).LinkQueue :=
  ⟨by decide, by decide,
    dump_transport_failure_keeps_queue (sampleServer 10 threeLinks) true sampleTime .runError
      (by decide) (by decide)⟩

/-- C2: on a non-empty queue, when `force` is set or the queue has at least `LinkMin`
links, `dump` attempts delivery: it creates the mailer command for `EmailAddr`, it feeds
the built message to the command unless the stdin pipe fails, and when the mailer
succeeds it returns true and leaves a queue of length 0. -/
theorem dump_attempts_delivery_and_commits (ld : LinkDump) (force : Bool) (now : Str)
    (m : Transport) (hne : ld.LinkQueue ≠ [])
    (hgate : force = true ∨ ld.LinkMin ≤ (ld.LinkQueue.length : Int)) :
    Effect.command msmtp ld.EmailAddr ∈ (ld.dump force now m).trace ∧
      (m ≠ .pipeError → Effect.run (ld.dumpMessage now) ∈ (ld.dump force now m).trace) ∧
      (m = .ok →
        (ld.dump force now m).ok = true ∧ (ld.dump force now m).ld.LinkQueue.length = 0) := by
  unfold LinkDump.dump
  rw [dumpGate_deliver ld force now hne hgate]
  cases m <;> simp [LinkDump.dumpDeliver]

theorem dump_attempts_delivery_and_commits_witness :
    (sampleServer 10 threeLinks).LinkQueue ≠ [] ∧
      (true = true ∨
        (sampleServer 10 threeLinks).LinkMin ≤ ((sampleServer 10 threeLinks).LinkQueue.length : Int)) ∧
      (Effect.command msmtp (sampleServer 10 threeLinks).EmailAddr ∈
          ((sampleServer 10 threeLinks).dump true sampleTime .ok).trace ∧
        (Transport.ok ≠ .pipeError →
          Effect.run ((sampleServer 10 threeLinks).dumpMessage sampleTime) ∈
            ((sampleServer 10 threeLinks).dump true sampleTime .ok).trace) ∧
        (Transport.ok = .ok →
          ((sampleServer 10 threeLinks).dump true sampleTime .ok).ok = true ∧
            ((sampleServer 10 threeLinks).dump true sampleTime .ok).ld.LinkQueue.length = 0)) :=
  ⟨by decide, Or.inl rfl,
    dump_attempts_delivery_and_commits (sampleServer 10 threeLinks) true sampleTime .ok
      (by decide) (Or.inl rfl)⟩

/-- C3: with `0 < len(LinkQueue) < LinkMin`, `dump(false)` is a no-op: it returns false,
the state is the one before the call, the outcome is the same for every behaviour of
the mailer, and no mailer command is created or run. -/
theorem dump_below_minimum_is_noop (ld : LinkDump) (now : Str) (m : Transport)
    (h0 : 0 < ld.LinkQueue.length) (h1 : (ld.LinkQueue.length : Int) < ld.LinkMin) :
    (ld.dump false now m).ok = false ∧ (ld.dump false now m).ld = ld ∧
      (∀ m1 : Transport, ld.dump false now m1 = ld.dump false now m) ∧
      (∀ name arg, Effect.command name arg ∉ (ld.dump false now m).trace) ∧
      (∀ msg, Effect.run msg ∉ (ld.dump false now m).trace) := by
  unfold LinkDump.dump
  rw [dumpGate_tooFew ld now h0 h1]
  simp

theorem dump_below_minimum_is_noop_witness :
    0 < (sampleServer 10 threeLinks).LinkQueue.length ∧
      ((sampleServer 10 threeLinks).LinkQueue.length : Int) < (sampleServer 10 threeLinks).LinkMin ∧
      (((sampleServer 10 threeLinks).dump false sampleTime .ok).ok = false ∧
        ((sampleServer 10 threeLinks).dump false sampleTime .ok).ld = sampleServer 10 threeLinks ∧
        (∀ m1 : Transport, (sampleServer 10 threeLinks).dump false sampleTime m1 =
          (sampleServer 10 threeLinks).dump false sampleTime .ok) ∧
        (∀ name arg, Effect.command name arg ∉
          ((sampleServer 10 threeLinks).dump false sampleTime .ok).trace) ∧
        (∀ msg, Effect.run msg ∉ ((sampleServer 10 threeLinks).dump false sampleTime .ok).trace)) ∧
      (sampleServer 10 threeLinks).LinkMin = 10 ∧
      ((sampleServer 10 threeLinks).dump false sampleTime .ok).ld.LinkQueue.length = 3 :=
  ⟨by decide, by decide,
    dump_below_minimum_is_noop (sampleServer 10 threeLinks) sampleTime .ok (by decide) (by decide),
    rfl, by decide⟩

/-- C4: on an empty queue, for every force value, every `LinkMin` (zero and negative
values included) and every behaviour of the mailer, `dump` returns false, leaves the
state as it was (the queue stays empty), and creates and runs no mailer command. -/
theorem dump_empty_queue_returns_false (ld : LinkDump) (force : Bool) (now : Str)
    (m : Transport) (hempty : ld.LinkQueue = []) :
    (ld.dump force now m).ok = false ∧ (ld.dump force now m).ld = ld ∧
      (ld.dump force now m).ld.LinkQueue = [] ∧
      (∀ name arg, Effect.command name arg ∉ (ld.dump force now m).trace) ∧
      (∀ msg, Effect.run msg ∉ (ld.dump force now m).trace) := by
  unfold LinkDump.dump
  rw [dumpGate_empty ld force now hempty]
  simp [hempty]

theorem dump_empty_queue_returns_false_witness :
    (sampleServer (-5) []).LinkQueue = [] ∧
      (((sampleServer (-5) []).dump true sampleTime .ok).ok = false ∧
        ((sampleServer (-5) []).dump true sampleTime .ok).ld = sampleServer (-5) [] ∧
        ((sampleServer (-5) []).dump true sampleTime .ok).ld.LinkQueue = [] ∧
        (∀ name arg, Effect.command name arg ∉ ((sampleServer (-5) []).dump true sampleTime .ok).trace) ∧
        (∀ msg, Effect.run msg ∉ ((sampleServer (-5) []).dump true sampleTime .ok).trace)) :=
  ⟨rfl, dump_empty_queue_returns_false (sampleServer (-5) []) true sampleTime .ok rfl⟩
/-! ## Claims on submit -/

theorem submit_eq (ld : LinkDump) (r : Request) (form : List (Str × Str))
    (hform : r.Form = some form) :
    ld.submit r =
      if TrimSpace (FormValue form "link".toList) = [] then ⟨emptyLinkRejected, ld, []⟩
      else if TrimSpace (FormValue form "link".toList) = aboutBlank then
        ⟨aboutBlankRejected, ld, []⟩
      else
        ⟨httpOK ("Link #".toList ++ decimal (ld.LinkQueue.length + 1) ++
            " pushed to queue!\n".toList),
          { ld with LinkQueue := ld.LinkQueue ++ [TrimSpace (FormValue form "link".toList)] },
          [.log (.queueing (ld.LinkQueue.length + 1)
            (TrimSpace (FormValue form "link".toList)))]⟩ := by
  unfold LinkDump.submit
  rw [hform]
  simp only [List.length_append, List.length_singleton]

theorem submit_empty (ld : LinkDump) (r : Request) (form : List (Str × Str))
    (hform : r.Form = some form) (h1 : TrimSpace (FormValue form "link".toList) = []) :
    ld.submit r = ⟨emptyLinkRejected, ld, []⟩ := by
  rw [submit_eq ld r form hform, if_pos h1]

theorem aboutBlank_ne_nil : aboutBlank ≠ [] := by decide

theorem submit_aboutBlank (ld : LinkDump) (r : Request) (form : List (Str × Str))
    (hform : r.Form = some form) (h2 : TrimSpace (FormValue form "link".toList) = aboutBlank) :
    ld.submit r = ⟨aboutBlankRejected, ld, []⟩ := by
  have h1 : ¬ TrimSpace (FormValue form "link".toList) = [] := by
    rw [h2]; exact aboutBlank_ne_nil
  rw [submit_eq ld r form hform, if_neg h1, if_pos h2]

theorem submit_accepts (ld : LinkDump) (r : Request) (form : List (Str × Str))
    (hform : r.Form = some form) (h1 : TrimSpace (FormValue form "link".toList) ≠ [])
    (h2 : TrimSpace (FormValue form "link".toList) ≠ aboutBlank) :
    ld.submit r =
      ⟨httpOK ("Link #".toList ++ decimal (ld.LinkQueue.length + 1) ++
          " pushed to queue!\n".toList),
        { ld with LinkQueue := ld.LinkQueue ++ [TrimSpace (FormValue form "link".toList)] },
        [.log (.queueing (ld.LinkQueue.length + 1)
          (TrimSpace (FormValue form "link".toList)))]⟩ := by
  rw [submit_eq ld r form hform, if_neg h1, if_neg h2]

theorem emptyLinkRejected_ne_aboutBlankRejected : emptyLinkRejected ≠ aboutBlankRejected := by
  decide

theorem httpOK_ne_emptyLinkRejected (body : Str) : httpOK body ≠ emptyLinkRejected := by
  intro h
  have := congrArg Response.Status h
  simp [httpOK, emptyLinkRejected, httpError] at this

theorem httpOK_ne_aboutBlankRejected (body : Str) : httpOK body ≠ aboutBlankRejected := by
  intro h
  have := congrArg Response.Status h
  simp [httpOK, aboutBlankRejected, httpError] at this

/-- C5: for every string `s` read as the form field `link` of a request whose form
parses, `submit` answers with the empty-link 400 response iff `TrimSpace s` is empty,
with the about:blank 400 response iff `TrimSpace s` is `about:blank`, and otherwise
answers 200 and the queue is one longer. -/
theorem submit_rejects_iff (ld : LinkDump) (r : Request) (form : List (Str × Str)) (s : Str)
    (hform : r.Form = some form) (hs : FormValue form "link".toList = s) :
    ((ld.submit r).resp = emptyLinkRejected ↔ TrimSpace s = []) ∧
      ((ld.submit r).resp = aboutBlankRejected ↔ TrimSpace s = aboutBlank) ∧
      (TrimSpace s ≠ [] → TrimSpace s ≠ aboutBlank →
        (ld.submit r).resp.Status = 200 ∧
          (ld.submit r).ld.LinkQueue.length = ld.LinkQueue.length + 1) := by
  subst hs
  by_cases h1 : TrimSpace (FormValue form "link".toList) = []
  · have h2 : ¬ TrimSpace (FormValue form "link".toList) = aboutBlank := by
      rw [h1]; exact fun h => aboutBlank_ne_nil h.symm
    rw [submit_empty ld r form hform h1]
    exact ⟨⟨fun _ => h1, fun _ => rfl⟩,
      ⟨fun h => absurd h emptyLinkRejected_ne_aboutBlankRejected, fun h => absurd h h2⟩,
      fun h => absurd h1 h⟩
  · by_cases h2 : TrimSpace (FormValue form "link".toList) = aboutBlank
    · rw [submit_aboutBlank ld r form hform h2]
      exact ⟨⟨fun h => absurd h.symm emptyLinkRejected_ne_aboutBlankRejected,
          fun h => absurd h h1⟩,
        ⟨fun _ => h2, fun _ => rfl⟩, fun _ h => absurd h2 h⟩
    · rw [submit_accepts ld r form hform h1 h2]
      refine ⟨⟨fun h => absurd h (httpOK_ne_emptyLinkRejected _), fun h => absurd h h1⟩,
        ⟨fun h => absurd h (httpOK_ne_aboutBlankRejected _), fun h => absurd h h2⟩,
        fun _ _ => ⟨rfl, ?_⟩⟩
      simp only [List.length_append, List.length_singleton]

theorem submit_rejects_iff_witness :
    (postLink "/" "  https://d.example \n").Form =
        some [("link".toList, "  https://d.example \n".toList)] ∧
      FormValue [("link".toList, "  https://d.example \n".toList)] "link".toList =
        "  https://d.example \n".toList ∧
      ((((sampleServer 10 threeLinks).submit (postLink "/" "  https://d.example \n")).resp =
            emptyLinkRejected ↔ TrimSpace "  https://d.example \n".toList = []) ∧
        (((sampleServer 10 threeLinks).submit (postLink "/" "  https://d.example \n")).resp =
            aboutBlankRejected ↔ TrimSpace "  https://d.example \n".toList = aboutBlank) ∧
        (TrimSpace "  https://d.example \n".toList ≠ [] →
          TrimSpace "  https://d.example \n".toList ≠ aboutBlank →
          ((sampleServer 10 threeLinks).submit (postLink "/" "  https://d.example \n")).resp.Status
              = 200 ∧
            ((sampleServer 10 threeLinks).submit
                (postLink "/" "  https://d.example \n")).ld.LinkQueue.length =
              (sampleServer 10 threeLinks).LinkQueue.length + 1)) :=
  ⟨rfl, by decide,
    submit_rejects_iff (sampleServer 10 threeLinks) (postLink "/" "  https://d.example \n")
      [("link".toList, "  https://d.example \n".toList)] "  https://d.example \n".toList rfl
      (by decide)⟩

/-- C6: `submit` appends or has no effect.  When the form parses and the trimmed link
is neither empty nor `about:blank`, the state afterwards is the state before with the
trimmed link appended to the queue (the earlier links unchanged and in order), the
status is 200 and the body written is `Link #` followed by the decimal digits of
`len(q)+1`, the 1-based index of the new element, and ` pushed to queue!`; when the
trimmed link is empty or `about:blank`, and when the form does not parse, the answer is
a 400 and the state is the one before. -/
theorem submit_appends_or_has_no_effect (ld : LinkDump) (r : Request) :
    (∀ form, r.Form = some form →
        (TrimSpace (FormValue form "link".toList) ≠ [] →
          TrimSpace (FormValue form "link".toList) ≠ aboutBlank →
          (ld.submit r).ld =
              { ld with LinkQueue := ld.LinkQueue ++ [TrimSpace (FormValue form "link".toList)] } ∧
            (ld.submit r).ld.LinkQueue.take ld.LinkQueue.length = ld.LinkQueue ∧
            (ld.submit r).ld.LinkQueue.get? ld.LinkQueue.length =
              some (TrimSpace (FormValue form "link".toList)) ∧
            (ld.submit r).ld.LinkQueue.length = ld.LinkQueue.length + 1 ∧
            (ld.submit r).resp.Status = 200 ∧
            (ld.submit r).resp.Body =
              "Link #".toList ++ Nat.toDigits 10 (ld.LinkQueue.length + 1) ++
                " pushed to queue!\n".toList) ∧
        (TrimSpace (FormValue form "link".toList) = [] ∨
            TrimSpace (FormValue form "link".toList) = aboutBlank →
          (ld.submit r).ld = ld ∧ (ld.submit r).resp.Status = 400)) ∧
      (r.Form = none → (ld.submit r).ld = ld ∧ (ld.submit r).resp.Status = 400) := by
  constructor
  · intro form hform
    constructor
    · intro h1 h2
      rw [submit_accepts ld r form hform h1 h2]
      refine ⟨rfl, ?_, ?_, ?_, rfl, rfl⟩
      · simp
      · simp
      · simp
    · intro h
      rcases h with h | h
      · rw [submit_empty ld r form hform h]
        exact ⟨rfl, rfl⟩
      · rw [submit_aboutBlank ld r form hform h]
        exact ⟨rfl, rfl⟩
  · intro hnone
    unfold LinkDump.submit
    rw [hnone]
    exact ⟨rfl, rfl⟩

theorem submit_appends_or_has_no_effect_witness :
    ((sampleServer 10 threeLinks).submit (postLink "/" "  https://d.example \n")).ld.LinkQueue =
        ["https://a.example".toList, "https://b.example".toList, "https://c.example".toList,
          "https://d.example".toList] ∧
      ((sampleServer 10 threeLinks).submit (postLink "/" "  https://d.example \n")).resp.Status =
        200 ∧
      ((sampleServer 10 threeLinks).submit (postLink "/" "  https://d.example \n")).resp.Body =
        ['L', 'i', 'n', 'k', ' ', '#', '4', ' ', 'p', 'u', 's', 'h', 'e', 'd', ' ', 't', 'o', ' ',
          'q', 'u', 'e', 'u', 'e', '!', '\n'] ∧
      ((sampleServer 10 threeLinks).submit (postLink "/" "about:blank")).ld =
        sampleServer 10 threeLinks ∧
      ((sampleServer 10 threeLinks).submit (postLink "/" "about:blank")).resp.Status = 400 :=
  have h := ((submit_appends_or_has_no_effect (sampleServer 10 threeLinks)
    (postLink "/" "  https://d.example \n")).1
      [("link".toList, "  https://d.example \n".toList)] rfl).1 (by decide) (by decide)
  have h2 := ((submit_appends_or_has_no_effect (sampleServer 10 threeLinks)
    (postLink "/" "about:blank")).1
      [("link".toList, "about:blank".toList)] rfl).2 (Or.inr (by decide))
  ⟨(congrArg LinkDump.LinkQueue h.1).trans (by decide), h.2.2.2.2.1,
    h.2.2.2.2.2.trans (by decide), h2.1, h2.2⟩

/-! ## The link invariant -/

theorem submit_preserves_QueueValid (ld : LinkDump) (r : Request) (h : ld.QueueValid) :
    (ld.submit r).ld.QueueValid := by
  cases hform : r.Form with
  | none =>
    have : (ld.submit r).ld = ld := by
      unfold LinkDump.submit
      rw [hform]
    rw [this]
    exact h
  | some form =>
    by_cases h1 : TrimSpace (FormValue form "link".toList) = []
    · rw [submit_empty ld r form hform h1]
      exact h
    · by_cases h2 : TrimSpace (FormValue form "link".toList) = aboutBlank
      · rw [submit_aboutBlank ld r form hform h2]
        exact h
      · rw [submit_accepts ld r form hform h1 h2]
        intro x hx
        simp only [List.mem_append, List.mem_singleton] at hx
        rcases hx with hx | hx
        · exact h x hx
        · subst hx
          exact ⟨h1, TrimSpace_idem _, h2⟩

theorem dumpDeliver_queue (ld : LinkDump) (msg : Str) (m : Transport) :
    (ld.dumpDeliver msg m).ld.LinkQueue = ld.LinkQueue ∨
      (ld.dumpDeliver msg m).ld.LinkQueue = [] := by
  cases m <;> simp [LinkDump.dumpDeliver]

theorem dump_queue (ld : LinkDump) (force : Bool) (now : Str) (m : Transport) :
    (ld.dump force now m).ld.LinkQueue = ld.LinkQueue ∨
      (ld.dump force now m).ld.LinkQueue = [] := by
  unfold LinkDump.dump
  cases ld.dumpGate force now with
  | refused tr => exact Or.inl rfl
  | deliver msg tr => exact dumpDeliver_queue ld msg m

theorem dump_preserves_QueueValid (ld : LinkDump) (force : Bool) (now : Str) (m : Transport)
    (h : ld.QueueValid) : (ld.dump force now m).ld.QueueValid := by
  unfold LinkDump.QueueValid
  rcases dump_queue ld force now m with hq | hq
  · rw [hq]; exact h
  · rw [hq]; intro x hx; cases hx

theorem router_preserves_QueueValid (ld : LinkDump) (r : Request) (env : Env)
    (h : ld.QueueValid) : (ld.router r env).ld.QueueValid := by
  unfold LinkDump.router
  split
  · split
    · exact h
    · split
      · exact submit_preserves_QueueValid ld r h
      · exact h
  · split
    · have hd := dump_preserves_QueueValid ld
        (r.Query.any (fun kv => kv.1 == "force".toList)) env.now env.mailer h
      simp only
      split <;> exact hd
    · exact h

theorem step_preserves_QueueValid (ld : LinkDump) (i : Input) (h : ld.QueueValid) :
    (ld.step i).QueueValid := by
  cases i with
  | http r env => exact router_preserves_QueueValid ld r env h
  | signal sig env => exact dump_preserves_QueueValid ld _ env.now env.mailer h

theorem run_preserves_QueueValid (inputs : List Input) :
    ∀ ld : LinkDump, ld.QueueValid → (ld.run inputs).QueueValid := by
  induction inputs with
  | nil => intro ld h; exact h
  | cons i rest ih =>
    intro ld h
    exact ih (ld.step i) (step_preserves_QueueValid ld i h)

/-- C7: starting from the empty queue that `main` creates, after any finite sequence of
router calls (list, submit with any form, dump with any force value and mailer
behaviour, refused requests) and signal-triggered dumps, every link `x` in `LinkQueue`
satisfies `x ≠ ""`, `TrimSpace x = x` and `x ≠ "about:blank"`. -/
theorem reachable_queue_links_valid (host : Str) (port : Int) (email : Str) (linkMin : Int)
    (inputs : List Input) :
    ∀ x ∈ ((mainInit host port email linkMin).run inputs).LinkQueue,
      x ≠ [] ∧ TrimSpace x = x ∧ x ≠ aboutBlank := by
  have h0 : (mainInit host port email linkMin).QueueValid := by
    intro x hx
    cases hx
  exact run_preserves_QueueValid inputs _ h0
theorem reachable_queue_links_valid_witness :
    ((mainInit "localhost".toList 1234 "me@localhost".toList 2).run
        [.http (postLink "/" " https://a.example\n") ⟨sampleTime, .ok⟩,
          .http (postLink "/" "about:blank ") ⟨sampleTime, .ok⟩,
          .signal .SIGUSR1 ⟨sampleTime, .ok⟩,
          .http (postLink "/" "https://b.example") ⟨sampleTime, .ok⟩]).LinkQueue =
        ["https://a.example".toList, "https://b.example".toList] ∧
      ∀ x ∈ ((mainInit "localhost".toList 1234 "me@localhost".toList 2).run
        [.http (postLink "/" " https://a.example\n") ⟨sampleTime, .ok⟩,
          .http (postLink "/" "about:blank ") ⟨sampleTime, .ok⟩,
          .signal .SIGUSR1 ⟨sampleTime, .ok⟩,
          .http (postLink "/" "https://b.example") ⟨sampleTime, .ok⟩]).LinkQueue,
        x ≠ [] ∧ TrimSpace x = x ∧ x ≠ aboutBlank :=
  ⟨by decide, reachable_queue_links_valid _ _ _ _ _⟩

/-! ## Submits while a dump is in flight -/

theorem submit_ld_eq (ld : LinkDump) (r : Request) :
    (ld.submit r).ld = { ld with LinkQueue := ld.LinkQueue ++ r.accepted.toList } := by
  cases hform : r.Form with
  | none =>
    unfold LinkDump.submit Request.accepted
    rw [hform]
    simp
  | some form =>
    unfold Request.accepted
    rw [hform]
    by_cases h1 : TrimSpace (FormValue form "link".toList) = []
    · rw [submit_empty ld r form hform h1]
      simp only [if_pos h1, Option.toList, List.append_nil]
    · by_cases h2 : TrimSpace (FormValue form "link".toList) = aboutBlank
      · rw [submit_aboutBlank ld r form hform h2]
        simp only [if_neg h1, if_pos h2, Option.toList, List.append_nil]
      · rw [submit_accepts ld r form hform h1 h2]
        simp only [if_neg h1, if_neg h2, Option.toList]

theorem submitAll_eq (during : List Request) :
    ∀ ld : LinkDump, ld.submitAll during =
      { ld with LinkQueue := ld.LinkQueue ++ during.filterMap Request.accepted } := by
  induction during with
  | nil => intro ld; simp [LinkDump.submitAll]
  | cons r rest ih =>
    intro ld
    have hstep : ld.submitAll (r :: rest) = (ld.submit r).ld.submitAll rest := rfl
    rw [hstep, ih, submit_ld_eq]
    cases hr : r.accepted with
    | none => simp [List.filterMap_cons, hr]
    | some x => simp [List.filterMap_cons, hr]

/-- C8, as amended: when a dump goes through the gate and requests are handled by
`submit` while the mailer runs, the message fed to the mailer is the one built from
the queue before those submits; when the mailer fails `dump` returns false and the
state is the one the submits left, its queue being the old queue followed by the
links accepted in flight; when the mailer succeeds `dump` returns true and the whole
queue is reset to empty. -/
theorem dumpInFlight_outcome (ld : LinkDump) (force : Bool) (now : Str)
    (during : List Request) (m : Transport) (hne : ld.LinkQueue ≠ [])
    (hgate : force = true ∨ ld.LinkMin ≤ (ld.LinkQueue.length : Int)) :
    (∀ msg, Effect.run msg ∈ (ld.dumpInFlight force now during m).trace →
        msg = specMessage now ld.EmailAddr ld.LinkQueue) ∧
      (m ≠ .ok →
        (ld.dumpInFlight force now during m).ok = false ∧
          (ld.dumpInFlight force now during m).ld = ld.submitAll during ∧
          (ld.dumpInFlight force now during m).ld.LinkQueue =
            ld.LinkQueue ++ during.filterMap Request.accepted) ∧
      (m = .ok →
        (ld.dumpInFlight force now during m).ok = true ∧
          (ld.dumpInFlight force now during m).ld.LinkQueue = []) := by
  unfold LinkDump.dumpInFlight
  rw [dumpGate_deliver ld force now hne hgate, dumpMessage_eq_specMessage]
  refine ⟨?_, ?_, ?_⟩
  · intro msg hmem
    cases m <;> simp [LinkDump.dumpDeliver] at hmem <;> exact hmem
  · intro hm
    have hf := dumpDeliver_failure (ld.submitAll during)
      (specMessage now ld.EmailAddr ld.LinkQueue) m hm
    refine ⟨hf.1, hf.2, ?_⟩
    simp only [hf.2]
    rw [submitAll_eq]
  · intro hm
    subst hm
    exact ⟨rfl, rfl⟩

theorem dumpInFlight_outcome_witness :
    (sampleServer 1 threeLinks).LinkQueue ≠ [] ∧
      (false = true ∨
        (sampleServer 1 threeLinks).LinkMin ≤ ((sampleServer 1 threeLinks).LinkQueue.length : Int)) ∧
      ((∀ msg, Effect.run msg ∈ ((sampleServer 1 threeLinks).dumpInFlight false sampleTime
            [postLink "/" "https://d.example"] .runError).trace →
          msg = specMessage sampleTime (sampleServer 1 threeLinks).EmailAddr
            (sampleServer 1 threeLinks).LinkQueue) ∧
        (Transport.runError ≠ .ok →
          ((sampleServer 1 threeLinks).dumpInFlight false sampleTime
              [postLink "/" "https://d.example"] .runError).ok = false ∧
            ((sampleServer 1 threeLinks).dumpInFlight false sampleTime
              [postLink "/" "https://d.example"] .runError).ld =
              (sampleServer 1 threeLinks).submitAll [postLink "/" "https://d.example"] ∧
            ((sampleServer 1 threeLinks).dumpInFlight false sampleTime
              [postLink "/" "https://d.example"] .runError).ld.LinkQueue =
              (sampleServer 1 threeLinks).LinkQueue ++
                [postLink "/" "https://d.example"].filterMap Request.accepted) ∧
        (Transport.runError = .ok →
          ((sampleServer 1 threeLinks).dumpInFlight false sampleTime
              [postLink "/" "https://d.example"] .runError).ok = true ∧
            ((sampleServer 1 threeLinks).dumpInFlight false sampleTime
              [postLink "/" "https://d.example"] .runError).ld.LinkQueue = [])) :=
  ⟨by decide, Or.inr (by decide),
    dumpInFlight_outcome (sampleServer 1 threeLinks) false sampleTime
      [postLink "/" "https://d.example"] .runError (by decide) (Or.inr (by decide))⟩

/-- C8, as stated, fails: with the queue of three links and `LinkMin = 1`, a dump is
let through the gate, the link `https://d.example` is accepted by `submit` (status
200) while the mailer runs, the mailer succeeds, and after `dump` returns true the
link is not in `LinkQueue`, which is empty. -/
theorem dumpInFlight_success_drops_submitted_link :
    ((sampleServer 1 threeLinks).submit (postLink "/" "https://d.example")).resp.Status = 200 ∧
      (postLink "/" "https://d.example").accepted = some "https://d.example".toList ∧
      ((sampleServer 1 threeLinks).dumpInFlight false sampleTime
        [postLink "/" "https://d.example"] .ok).ok = true ∧
      "https://d.example".toList ∉ ((sampleServer 1 threeLinks).dumpInFlight false sampleTime
        [postLink "/" "https://d.example"] .ok).ld.LinkQueue ∧
      ((sampleServer 1 threeLinks).dumpInFlight false sampleTime
        [postLink "/" "https://d.example"] .ok).ld.LinkQueue = [] := by
  decide
/-! ## Claims on router -/

/-- On a path other than `/` and `/dump`, `router` answers 403, calls neither `submit`
nor `dump` and leaves the state as it was. -/
theorem router_other_path_forbidden (ld : LinkDump) (r : Request) (env : Env)
    (h1 : r.Path ≠ "/".toList) (h2 : r.Path ≠ "/dump".toList) :
    ld.router r env = ⟨forbidden, ld, []⟩ := by
  unfold LinkDump.router
  rw [if_neg h1, if_neg h2]

/-- On the path `/`, a method other than GET and POST is answered with 403 and the
state stays as it was. -/
theorem router_root_other_method_forbidden (ld : LinkDump) (r : Request) (env : Env)
    (hp : r.Path = "/".toList) (h1 : r.Method ≠ "GET".toList) (h2 : r.Method ≠ "POST".toList) :
    ld.router r env = ⟨forbidden, ld, []⟩ := by
  unfold LinkDump.router
  rw [if_pos hp, if_neg h1, if_neg h2]

/-- On the path `/dump`, `router` does not look at the method: it calls `dump`, takes
its state and effects, and answers 200. -/
theorem router_dump_any_method (ld : LinkDump) (r : Request) (env : Env)
    (hp : r.Path = "/dump".toList) :
    (ld.router r env).ld =
        (ld.dump (r.Query.any (fun kv => kv.1 == "force".toList)) env.now env.mailer).ld ∧
      (ld.router r env).trace =
        (ld.dump (r.Query.any (fun kv => kv.1 == "force".toList)) env.now env.mailer).trace ∧
      (ld.router r env).resp.Status = 200 := by
  have hne : r.Path ≠ "/".toList := by
    rw [hp]; decide
  unfold LinkDump.router
  rw [if_neg hne, if_pos hp]
  simp only
  split <;> exact ⟨rfl, rfl, rfl⟩

theorem router_dump_any_method_witness :
    postDump.Path = "/dump".toList ∧
      (((sampleServer 3 threeLinks).router postDump ⟨sampleTime, .ok⟩).ld =
          ((sampleServer 3 threeLinks).dump
            (postDump.Query.any (fun kv => kv.1 == "force".toList)) sampleTime .ok).ld ∧
        ((sampleServer 3 threeLinks).router postDump ⟨sampleTime, .ok⟩).trace =
          ((sampleServer 3 threeLinks).dump
            (postDump.Query.any (fun kv => kv.1 == "force".toList)) sampleTime .ok).trace ∧
        ((sampleServer 3 threeLinks).router postDump ⟨sampleTime, .ok⟩).resp.Status = 200) :=
  ⟨rfl, router_dump_any_method (sampleServer 3 threeLinks) postDump ⟨sampleTime, .ok⟩ rfl⟩

/-- C9, the code at `POST /dump`: with three links queued and `LinkMin = 3`, `router`
answers 200 with the success text, not 403; it has called `dump`, which created and ran
the mailer command, and the queue is empty afterwards. -/
theorem router_post_dump_runs_dump :
    ((sampleServer 3 threeLinks).router postDump ⟨sampleTime, .ok⟩).resp =
        httpOK "Dump successful, email incoming!\n".toList ∧
      ((sampleServer 3 threeLinks).router postDump ⟨sampleTime, .ok⟩).resp.Status ≠ 403 ∧
      Effect.command msmtp "me@localhost".toList ∈
        ((sampleServer 3 threeLinks).router postDump ⟨sampleTime, .ok⟩).trace ∧
      ((sampleServer 3 threeLinks).router postDump ⟨sampleTime, .ok⟩).ld.LinkQueue = [] ∧
      (sampleServer 3 threeLinks).LinkQueue = threeLinks := by
  decide

/-! ## The dump message -/

/-- C10: every message that `dump` feeds to the mailer is the message of the
specification for the timestamp, `EmailAddr` and the queue at the call: the header
`Subject: linkdump - t`, `To: a`, an empty line, then the links numbered from 1 in
queue order, one per line; and on a non-empty queue that passes the gate this message
is fed to the mailer whenever the stdin pipe can be created. -/
theorem dump_message_is_specMessage (ld : LinkDump) (force : Bool) (now : Str)
    (m : Transport) :
    (∀ msg, Effect.run msg ∈ (ld.dump force now m).trace →
        msg = specMessage now ld.EmailAddr ld.LinkQueue) ∧
      (ld.LinkQueue ≠ [] → (force = true ∨ ld.LinkMin ≤ (ld.LinkQueue.length : Int)) →
        m ≠ .pipeError →
        Effect.run (specMessage now ld.EmailAddr ld.LinkQueue) ∈ (ld.dump force now m).trace) := by
  constructor
  · intro msg hmem
    unfold LinkDump.dump LinkDump.dumpGate at hmem
    rw [dumpMessage_eq_specMessage] at hmem
    by_cases h0 : ld.LinkQueue.length = 0
    · simp [h0] at hmem
    · by_cases h1 : ((ld.LinkQueue.length : Int) < ld.LinkMin && !force) = true
      · simp only [h0, h1, if_false, if_true] at hmem
        simp at hmem
      · simp only [h0, h1, if_false] at hmem
        cases m <;> simp [LinkDump.dumpDeliver] at hmem <;> exact hmem
  · intro hne hgate hm
    rw [← dumpMessage_eq_specMessage, dump_of_gate_open ld force now m hne hgate]
    exact List.mem_append_right _ (run_mem_dumpDeliver ld (ld.dumpMessage now) m hm)

theorem dump_message_is_specMessage_witness :
    Effect.run ("Subject: linkdump - Mon Jan  2 15:04:05 MST 2006\nTo: me@localhost\n\n" ++
        "1. https://a.example\n2. https://b.example\n3. https://c.example\n").toList ∈
      ((sampleServer 3 threeLinks).dump false sampleTime .ok).trace :=
  (by decide : specMessage sampleTime (sampleServer 3 threeLinks).EmailAddr
      (sampleServer 3 threeLinks).LinkQueue =
      ("Subject: linkdump - Mon Jan  2 15:04:05 MST 2006\nTo: me@localhost\n\n" ++
        "1. https://a.example\n2. https://b.example\n3. https://c.example\n").toList) ▸
    (dump_message_is_specMessage (sampleServer 3 threeLinks) false sampleTime .ok).2
      (by decide) (Or.inr (by decide)) (by decide)

end Linkdump
